import Mathlib

/-!
Shallow embedding of the integration-test orchestration code of the
ultimate-paas-frontend repository:

* `src/packages/testing/src/api-testing.ts` — class `BackendApiTester`
  (HTTP probes and `runFullIntegrationTest`), modelled over an explicit
  transport oracle (`Backend`): every axios request either yields a
  response value or a transport error (`Except HttpError _`), mirroring
  axios resolve/reject behaviour (non-2xx statuses are delivered as the
  numeric status; a thrown transport error carries `error.message` and
  the optional `error.response.data.message`).
* `src/e2e/integration.spec.ts` — class `IntegrationTestRunner`
  (`run`/`cleanup` process lifecycle, `startBackend`/`startFrontend`
  readiness waits, `waitForUrl` polling, `generateReport`).

JavaScript truthiness on optional strings (`if (this.authToken)`,
`if (response.data.access_token)`, `a || b`) is modelled explicitly.
-/

namespace UltimatePaas

/-- JavaScript truthiness of a possibly absent string: `undefined` and the
empty string are falsy, every other string is truthy. -/
def truthyStr : Option String → Bool
  | none => false
  | some s => !(s == "")

/-- JavaScript `a || b` for an optional string `a` and a string `b`:
yields `b` when `a` is absent or falsy (empty). Used for
`error.response?.data?.message || error.message`. -/
def jsOrStr : Option String → String → String
  | none, d => d
  | some s, d => if s == "" then d else s

/-- An axios transport error: `error.message` plus the optional
`error.response.data.message`. -/
structure HttpError where
  message : String
  responseMessage : Option String
deriving DecidableEq

/-- Login credentials posted to `/auth/login`. -/
structure Creds where
  username : String
  password : String
deriving DecidableEq

/-- Response body of `POST /auth/login`: `response.data.access_token`,
possibly absent. The status is not inspected by the code. -/
structure LoginData where
  access_token : Option String
deriving DecidableEq

/-- Response of `POST /api/v1/applications`: the HTTP status and
`response.data.data?.id` (possibly absent). -/
structure CreateAppResp where
  status : Nat
  id : Option String
deriving DecidableEq

/-- Response of `POST /graphql`: the HTTP status and
`response.data.errors` (an optional array of error messages; an absent
array is falsy in `!response.data.errors`, a present one — even empty —
is truthy). -/
structure GraphQLResp where
  status : Nat
  errors : Option (List String)
deriving DecidableEq

/-- The transport oracle for one run: what each HTTP request of
`BackendApiTester` returns. Every field takes the value of the
`Authorization` header attached by the request interceptor (absent when
no auth token is stored). -/
structure Backend where
  health : Option String → Except HttpError Nat
  login : Option String → Creds → Except HttpError LoginData
  listApplications : Option String → Except HttpError Nat
  createApplication : Option String → Except HttpError CreateAppResp
  getApplication : Option String → String → Except HttpError Nat
  updateApplication : Option String → String → Except HttpError Nat
  deleteApplication : Option String → String → Except HttpError Nat
  listDeployments : Option String → Except HttpError Nat
  getInsights : Option String → Except HttpError Nat
  getRecommendations : Option String → Except HttpError Nat
  graphql : Option String → Except HttpError GraphQLResp

/-- The request interceptor (api-testing.ts lines 27-32): when the stored
`authToken` is truthy the request carries
`Authorization: Bearer <token>`, otherwise no such header. -/
def mkAuthHeader (authToken : Option String) : Option String :=
  if truthyStr authToken then some ("Bearer " ++ authToken.getD "") else none

/-- `testConnectivity` (api-testing.ts lines 38-46): `GET /health`,
`true` iff the request succeeds with status 200; a transport error is
caught and yields `false`. -/
def testConnectivity (b : Backend) (authToken : Option String) : Bool :=
  match b.health (mkAuthHeader authToken) with
  | .ok status => status == 200
  | .error _ => false

/-- Return value of `testAuthentication`. -/
structure AuthResult where
  success : Bool
  token : Option String
  error : Option String
deriving DecidableEq

/-- The state-updating core of `testAuthentication` (api-testing.ts lines
56-76), acting on the stored `authToken` and the outcome of the
`POST /auth/login` request: on a truthy `access_token` the token is
stored and returned; otherwise the stored token is left as it was and a
failure result is produced. -/
def authUpdate (authToken : Option String) (r : Except HttpError LoginData) :
    Option String × AuthResult :=
  match r with
  | .ok d =>
      if truthyStr d.access_token then
        (d.access_token, ⟨true, d.access_token, none⟩)
      else
        (authToken, ⟨false, none, some "No token received"⟩)
  | .error e =>
      (authToken, ⟨false, none, some (jsOrStr e.responseMessage e.message)⟩)

/-- `testAuthentication` (api-testing.ts lines 51-77): posts the
credentials to `/auth/login` and applies `authUpdate` to the outcome;
returns the new stored token together with the result record. -/
def testAuthentication (b : Backend) (authToken : Option String) (creds : Creds) :
    Option String × AuthResult :=
  authUpdate authToken (b.login (mkAuthHeader authToken) creds)

/-- The `results` record built by `testApplicationEndpoints`: one
optional boolean per key, `none` meaning the key was never inserted into
the record. -/
structure AppResults where
  listApplications : Option Bool
  createApplication : Option Bool
  getApplication : Option Bool
  updateApplication : Option Bool
  deleteApplication : Option Bool
deriving DecidableEq

/-- `Object.values(results)` for an `AppResults` record, in key insertion
order, keeping only keys actually present. -/
def AppResults.values (r : AppResults) : List Bool :=
  [r.listApplications, r.createApplication, r.getApplication,
   r.updateApplication, r.deleteApplication].filterMap id

/-- Return value of the record-based probes (`success`, `results`,
`errors`). -/
structure AppProbeResult where
  success : Bool
  results : AppResults
  errors : List String
deriving DecidableEq

/-- `testApplicationEndpoints` (api-testing.ts lines 82-155): list, then
create; the get/update/delete sub-probes run only when the create
response carries a truthy `data.data.id`; every sub-probe catches its
own transport error, recording `false` and pushing a message; `success`
is `Object.values(results).every(Boolean)`. -/
def testApplicationEndpoints (b : Backend) (authToken : Option String) : AppProbeResult :=
  let h := mkAuthHeader authToken
  let listPart : Option Bool × List String :=
    match b.listApplications h with
    | .ok st => (some (st == 200), [])
    | .error e => (some false, ["List applications failed: " ++ e.message])
  match b.createApplication h with
  | .ok resp =>
      let createVal : Option Bool := some (resp.status == 201)
      if truthyStr resp.id then
        let appId := resp.id.getD ""
        let getPart : Option Bool × List String :=
          match b.getApplication h appId with
          | .ok st => (some (st == 200), [])
          | .error e => (some false, ["Get application failed: " ++ e.message])
        let updPart : Option Bool × List String :=
          match b.updateApplication h appId with
          | .ok st => (some (st == 200), [])
          | .error e => (some false, ["Update application failed: " ++ e.message])
        let delPart : Option Bool × List String :=
          match b.deleteApplication h appId with
          | .ok st => (some (st == 200), [])
          | .error e => (some false, ["Delete application failed: " ++ e.message])
        let results : AppResults :=
          ⟨listPart.1, createVal, getPart.1, updPart.1, delPart.1⟩
        ⟨results.values.all id, results,
          listPart.2 ++ getPart.2 ++ updPart.2 ++ delPart.2⟩
      else
        let results : AppResults := ⟨listPart.1, createVal, none, none, none⟩
        ⟨results.values.all id, results, listPart.2⟩
  | .error e =>
      let results : AppResults := ⟨listPart.1, some false, none, none, none⟩
      ⟨results.values.all id, results,
        listPart.2 ++ ["Create application failed: " ++ e.message]⟩

/-- The `results` record of `testDeploymentEndpoints`: its single key is
always assigned by the try/catch. -/
structure DepResults where
  listDeployments : Bool
deriving DecidableEq

/-- Return value of `testDeploymentEndpoints`. -/
structure DepProbeResult where
  success : Bool
  results : DepResults
  errors : List String
deriving DecidableEq

/-- `testDeploymentEndpoints` (api-testing.ts lines 160-182):
`GET /api/v1/deployments`; success of the record key is status 200, a
transport error records `false` with a message; `success` is the
conjunction over the record values. -/
def testDeploymentEndpoints (b : Backend) (authToken : Option String) : DepProbeResult :=
  match b.listDeployments (mkAuthHeader authToken) with
  | .ok st => ⟨[st == 200].all id, ⟨st == 200⟩, []⟩
  | .error e => ⟨[false].all id, ⟨false⟩, ["List deployments failed: " ++ e.message]⟩

/-- The `results` record of `testAIEndpoints`: both keys are always
assigned. -/
structure AIResults where
  getInsights : Bool
  getRecommendations : Bool
deriving DecidableEq

/-- Return value of `testAIEndpoints`. -/
structure AIProbeResult where
  success : Bool
  results : AIResults
  errors : List String
deriving DecidableEq

/-- `testAIEndpoints` (api-testing.ts lines 187-218): probes
`/api/v1/ai/insights` then `/api/v1/ai/recommendations`, each with its
own try/catch; `success` is the conjunction over the record values. -/
def testAIEndpoints (b : Backend) (authToken : Option String) : AIProbeResult :=
  let h := mkAuthHeader authToken
  let insPart : Bool × List String :=
    match b.getInsights h with
    | .ok st => (st == 200, [])
    | .error e => (false, ["Get AI insights failed: " ++ e.message])
  let recPart : Bool × List String :=
    match b.getRecommendations h with
    | .ok st => (st == 200, [])
    | .error e => (false, ["Get AI recommendations failed: " ++ e.message])
  ⟨[insPart.1, recPart.1].all id, ⟨insPart.1, recPart.1⟩, insPart.2 ++ recPart.2⟩

/-- Return value of `testGraphQLEndpoint`. -/
structure GqlResult where
  success : Bool
  error : Option String
deriving DecidableEq

/-- `testGraphQLEndpoint` (api-testing.ts lines 223-250): posts the query
to `/graphql`; success is status 200 and absence of the `errors` array;
the reported error is the first error message when present; a transport
error yields `success: false` with the error's message. -/
def testGraphQLEndpoint (b : Backend) (authToken : Option String) : GqlResult :=
  match b.graphql (mkAuthHeader authToken) with
  | .ok r => ⟨(r.status == 200) && !r.errors.isSome, r.errors.bind List.head?⟩
  | .error e => ⟨false, some e.message⟩

/-- The `results` record accumulated by `runFullIntegrationTest`: a key
is `none` when the corresponding probe category was never attempted in
the run. -/
structure RunResults where
  connectivity : Bool
  authentication : Option AuthResult
  applications : Option AppProbeResult
  deployments : Option DepProbeResult
  ai : Option AIProbeResult
  graphql : Option GqlResult
deriving DecidableEq

/-- Return value of `runFullIntegrationTest`. -/
structure FullResult where
  success : Bool
  results : RunResults
  summary : String
deriving DecidableEq

/-- `runFullIntegrationTest` (api-testing.ts lines 255-337): runs
connectivity first and returns early when it fails; otherwise runs
authentication (with the fixed admin credentials, updating the stored
token), then applications, deployments, AI and GraphQL in order; the
overall flag is the conjunction of the connectivity, authentication,
applications and deployments successes. -/
def runFullIntegrationTest (b : Backend) : FullResult :=
  let connectivity := testConnectivity b none
  if !connectivity then
    ⟨false, ⟨connectivity, none, none, none, none, none⟩,
      "Backend is not accessible. Please ensure ultimate-paas-base is running."⟩
  else
    let authStep := testAuthentication b none ⟨"admin", "admin123"⟩
    let auth := authStep.2
    let tok := authStep.1
    let apps := testApplicationEndpoints b tok
    let deps := testDeploymentEndpoints b tok
    let ai := testAIEndpoints b tok
    let gql := testGraphQLEndpoint b tok
    let overallSuccess := connectivity && auth.success && apps.success && deps.success
    ⟨overallSuccess,
      ⟨connectivity, some auth, some apps, some deps, some ai, some gql⟩,
      if overallSuccess then
        "All integration tests passed! Frontend is ready to connect to backend."
      else
        "Some integration tests failed. Please check the backend configuration."⟩

/-- Overall success as the specification words it for claim C3, written
from the spec and not from the source: the logical AND across the
success values of all recorded probe categories (a category that was not
recorded contributes nothing). -/
def specOverallSuccess (r : RunResults) : Bool :=
  r.connectivity &&
  (r.authentication.map AuthResult.success).getD true &&
  (r.applications.map AppProbeResult.success).getD true &&
  (r.deployments.map DepProbeResult.success).getD true &&
  (r.ai.map AIProbeResult.success).getD true &&
  (r.graphql.map GqlResult.success).getD true

/-- Whether one login-request outcome is a successful login carrying a
truthy `access_token`. -/
def loginSucceeds : Except HttpError LoginData → Bool
  | .ok d => truthyStr d.access_token
  | .error _ => false

/-- The stored auth token after a sequence of `testAuthentication` calls
whose login requests returned the given outcomes, starting from the
freshly constructed tester (no token stored). -/
def authTokenAfter (resps : List (Except HttpError LoginData)) : Option String :=
  resps.foldl (fun tok r => (authUpdate tok r).1) none

/-! ## IntegrationTestRunner (src/e2e/integration.spec.ts) -/

/-- Outcome of one orchestration step of `run()`: it either completes or
throws (rejects) with an error message. -/
inductive StepResult where
  | ok
  | throws (msg : String)
deriving DecidableEq

/-- The environment of one `run()` of `IntegrationTestRunner`: whether
`checkPrerequisites`, `startBackend` and `startFrontend` complete or
throw. The later phases (`runApiTests`, `runFrontendTests`,
`runE2ETests`) catch their own errors and never reject outward
(integration.spec.ts lines 301-349), so they do not appear here. -/
structure RunEnv where
  prereq : StepResult
  backendStart : StepResult
  frontendStart : StepResult
deriving DecidableEq

/-- Observable process-lifecycle state of one `run()`:
which child-process handles were assigned by `spawn`, how many times
`cleanup()` ran, how many kill requests each handle received, and
whether `process.exit` was invoked (with which code). -/
structure RunState where
  backendSpawned : Bool
  frontendSpawned : Bool
  cleanupCalls : Nat
  backendKills : Nat
  frontendKills : Nat
  exitCode : Option Nat
deriving DecidableEq

/-- `cleanup` (integration.spec.ts lines 414-426): kills the backend and
frontend processes when their handles are non-null (a handle is non-null
exactly when `spawn` assigned it during this run). -/
def cleanup (s : RunState) : RunState :=
  { s with
    cleanupCalls := s.cleanupCalls + 1
    backendKills := s.backendKills + (if s.backendSpawned then 1 else 0)
    frontendKills := s.frontendKills + (if s.frontendSpawned then 1 else 0) }

/-- `run` (integration.spec.ts lines 170-201). The phases run in order
inside `try`; a thrown error reaches the `catch` block, which calls
`process.exit(1)`: in Node, `process.exit` terminates the process
immediately, so JavaScript execution does not continue into the
`finally` block and `cleanup()` is not invoked on that path. On the
non-throwing path the `finally` block runs `cleanup()` once.
`startBackend`/`startFrontend` assign the process handle via `spawn`
before waiting for readiness, so the handle is set even when the wait
then times out or errors. -/
def run (env : RunEnv) : RunState :=
  let s0 : RunState := ⟨false, false, 0, 0, 0, none⟩
  match env.prereq with
  | .throws _ => { s0 with exitCode := some 1 }
  | .ok =>
    let s1 := { s0 with backendSpawned := true }
    match env.backendStart with
    | .throws _ => { s1 with exitCode := some 1 }
    | .ok =>
      let s2 := { s1 with frontendSpawned := true }
      match env.frontendStart with
      | .throws _ => { s2 with exitCode := some 1 }
      | .ok => cleanup s2

/-! ### Startup readiness waits (`startBackend` / `startFrontend`) -/

/-- Whether `needle` occurs at the start of `hay` (character lists). -/
def leadsWith : List Char → List Char → Bool
  | [], _ => true
  | _ :: _, [] => false
  | a :: as, b :: bs => a == b && leadsWith as bs

/-- Whether `needle` occurs somewhere in `hay` (character lists):
JavaScript `hay.includes(needle)`. -/
def containsSub (needle : List Char) : List Char → Bool
  | [] => leadsWith needle []
  | h :: t => leadsWith needle (h :: t) || containsSub needle t

/-- JavaScript `hay.includes(needle)` on strings. -/
def strHas (hay needle : String) : Bool :=
  containsSub needle.toList hay.toList

/-- One event observed while waiting for a spawned process to become
ready: a chunk arriving on its standard output, or the process emitting
an `error` event. -/
inductive ProcEvent where
  | out (chunk : String)
  | procError (msg : String)
deriving DecidableEq

/-- How a startup promise settles (or fails to). -/
inductive StartOutcome where
  | resolved
  | rejectedTimeout
  | rejectedError (msg : String)
  | hung
deriving DecidableEq

/-- Whether a startup promise settled at all (resolved or rejected). -/
def StartOutcome.isSettled : StartOutcome → Bool
  | .hung => false
  | _ => true

/-- The settling behaviour of the startup promises of
`startBackend`/`startFrontend` (integration.spec.ts lines 232-262 and
268-298), over a time-ordered list of process events. `acc` is the
accumulated stdout (`output += data`), `armed` whether the single
`setTimeout` callback is still pending. On each stdout chunk the resolve
condition is checked against the accumulated output; when the timeout
moment `T` is reached first, the timeout callback rejects exactly when
its own condition on the accumulated output fails, and otherwise does
nothing (the wait continues, no longer guarded by any timer). A process
`error` event rejects. When no event ever settles the promise, it hangs. -/
def settleStart (resolveCond timeoutCond : String → Bool) (T : Nat) :
    String → Bool → List (Nat × ProcEvent) → StartOutcome
  | acc, armed, [] =>
      if armed && !(timeoutCond acc) then .rejectedTimeout else .hung
  | acc, armed, (t, ev) :: rest =>
      let fires := armed && decide (T ≤ t)
      if fires && !(timeoutCond acc) then .rejectedTimeout
      else
        let armed' := armed && !(decide (T ≤ t))
        match ev with
        | .out c =>
            let acc' := acc ++ c
            if resolveCond acc' then .resolved
            else settleStart resolveCond timeoutCond T acc' armed' rest
        | .procError m => .rejectedError m

/-- `startBackend` (integration.spec.ts lines 227-263): resolves when
the accumulated stdout contains the readiness banner
`Uvicorn running on`; the 30000 ms timeout rejects when the accumulated
output does not contain that same banner. -/
def startBackendOutcome (events : List (Nat × ProcEvent)) : StartOutcome :=
  settleStart (fun out => strHas out "Uvicorn running on")
    (fun out => strHas out "Uvicorn running on") 30000 "" true events

/-- `startFrontend` (integration.spec.ts lines 265-299): resolves when
the accumulated stdout contains both `Ready in` and `3000`; the
60000 ms timeout rejects only when the accumulated output lacks
`Ready in` (it does not check for `3000`). -/
def startFrontendOutcome (events : List (Nat × ProcEvent)) : StartOutcome :=
  settleStart (fun out => strHas out "Ready in" && strHas out "3000")
    (fun out => strHas out "Ready in") 60000 "" true events

/-! ### `waitForUrl` readiness polling -/

/-- How one `waitForUrl` call ends: a 2xx response at the given elapsed
time, or the timeout error thrown at the given elapsed time. `fuelOut`
is an artefact of the fuel-based recursion and is proved unreachable for
the fuel `waitForUrl` supplies. -/
inductive PollResult where
  | success (endTime : Nat)
  | timedOut (endTime : Nat)
  | fuelOut
deriving DecidableEq

/-- The polling loop of `waitForUrl` (integration.spec.ts lines
363-376). `attempts k = (ok, dur)` describes the k-th HTTP attempt:
whether axios resolves with a 2xx response, and how long the request
takes (bounded by the 5000 ms axios timeout). While the elapsed time is
below `timeout` the loop makes the next attempt, returning on success
and otherwise sleeping 1000 ms before re-checking; once the elapsed time
reaches `timeout` it throws the not-ready error. -/
def waitForUrlGo (attempts : Nat → Bool × Nat) (timeout : Nat) :
    Nat → Nat → Nat → PollResult
  | 0, _, elapsed =>
      if elapsed < timeout then .fuelOut else .timedOut elapsed
  | fuel + 1, k, elapsed =>
      if elapsed < timeout then
        if (attempts k).1 then .success (elapsed + (attempts k).2)
        else waitForUrlGo attempts timeout fuel (k + 1) (elapsed + (attempts k).2 + 1000)
      else .timedOut elapsed

/-- `waitForUrl` with its configured timeout (default 30000 ms): the
polling loop starting at attempt 0 and elapsed time 0. The fuel
`timeout + 1` is sufficient because every unsuccessful iteration
advances the elapsed time by at least the 1000 ms sleep. -/
def waitForUrl (attempts : Nat → Bool × Nat) (timeout : Nat := 30000) : PollResult :=
  waitForUrlGo attempts timeout (timeout + 1) 0 0

/-- Elapsed time at which the k-th attempt of the polling loop starts
when every earlier attempt failed: each earlier iteration consumed its
request duration plus the 1000 ms sleep. -/
def elapsedAt (attempts : Nat → Bool × Nat) (k0 : Nat) : Nat → Nat
  | 0 => 0
  | k + 1 => ((attempts k0).2 + 1000) + elapsedAt attempts (k0 + 1) k

/-! ### `generateReport` and the JSON report -/

/-- One phase entry of `testResults` as `generateReport` reads it: its
`success` flag and optional `error` message. -/
structure PhaseOutcome where
  success : Bool
  error : Option String
deriving DecidableEq

/-- The `testResults` fields that carry phase outcomes
(integration.spec.ts lines 162-167): the integration (API), frontend and
e2e phases. -/
structure TestResults where
  integration : PhaseOutcome
  frontend : PhaseOutcome
  e2e : PhaseOutcome
deriving DecidableEq

/-- JSON values, as produced by `JSON.stringify` and read back by
`JSON.parse`. -/
inductive Json where
  | null
  | bool (b : Bool)
  | num (n : Int)
  | str (s : String)
  | arr (xs : List Json)
  | obj (fields : List (String × Json))

/-- JSON encoding of one phase outcome: `JSON.stringify` keeps the
`success` boolean and omits the `error` key when it is `undefined`. -/
def encodePhase (p : PhaseOutcome) : Json :=
  Json.obj ([("success", Json.bool p.success)] ++
    (match p.error with
     | some m => [("error", Json.str m)]
     | none => []))

/-- JSON encoding of `testResults`, in its key insertion order
(`backend` — an empty record in every run — then `frontend`,
`integration`, `e2e`). -/
def encodeTestResults (tr : TestResults) : Json :=
  Json.obj [("backend", Json.obj []),
            ("frontend", encodePhase tr.frontend),
            ("integration", encodePhase tr.integration),
            ("e2e", encodePhase tr.e2e)]

/-- Field lookup on a parsed JSON object. -/
def Json.getField : Json → String → Option Json
  | .obj fields, k => (fields.find? (fun p => p.1 == k)).map Prod.snd
  | _, _ => none

/-- Reading a JSON value back as a boolean. -/
def Json.asBool : Json → Option Bool
  | .bool b => some b
  | _ => none

/-- Reading the per-phase `success` boolean out of a parsed report
file. -/
def decodePhaseSuccess (j : Json) (phase : String) : Option Bool :=
  (j.getField phase).bind (fun p => (p.getField "success").bind Json.asBool)

/-- The observable output of `generateReport` (integration.spec.ts lines
378-412): the console summary line per phase, the derived overall flag,
and the JSON value serialized to the report file. -/
structure Report where
  lines : List String
  overall : Bool
  reportJson : Json

/-- `generateReport` (integration.spec.ts lines 378-412): builds the
ordered phase list (API integration, frontend, e2e), prints one
PASS/FAIL line per phase, derives overall success as
`results.every(r => r.result.success)`, and serializes the full
`testResults` to the report file. -/
def generateReport (tr : TestResults) : Report :=
  let entries : List (String × PhaseOutcome) :=
    [("API Integration", tr.integration),
     ("Frontend Tests", tr.frontend),
     ("E2E Tests", tr.e2e)]
  { lines := entries.map (fun e => e.1 ++ ": " ++ (if e.2.success then "PASS" else "FAIL"))
    overall := entries.all (fun e => e.2.success)
    reportJson := encodeTestResults tr }

/-- A poll target that never returns 2xx, each request completing
instantly. -/
def attemptsNever : Nat → Bool × Nat := fun _ => (false, 0)

/-- A poll target that never returns 2xx, each request taking 4999 ms
(within the 5000 ms axios request timeout). -/
def attemptsSlow : Nat → Bool × Nat := fun _ => (false, 4999)

/-- A poll target whose every attempt returns 2xx after 5 ms. -/
def attemptsFirstOk : Nat → Bool × Nat := fun _ => (true, 5)

/-! ### Concrete transports used as test inputs -/

/-- A backend on which every request succeeds (statuses 200/201, a
truthy token and application id, no GraphQL errors). -/
def bAllOk : Backend where
  health := fun _ => .ok 200
  login := fun _ _ => .ok ⟨some "tok"⟩
  listApplications := fun _ => .ok 200
  createApplication := fun _ => .ok ⟨201, some "app-1"⟩
  getApplication := fun _ _ => .ok 200
  updateApplication := fun _ _ => .ok 200
  deleteApplication := fun _ _ => .ok 200
  listDeployments := fun _ => .ok 200
  getInsights := fun _ => .ok 200
  getRecommendations := fun _ => .ok 200
  graphql := fun _ => .ok ⟨200, none⟩

/-- A backend whose `/health` request fails at the transport level. -/
def bConnFail : Backend :=
  { bAllOk with health := fun _ => .error ⟨"connect ECONNREFUSED 127.0.0.1:8000", none⟩ }

/-- A backend on which only the AI-insights request fails. -/
def bAiFail : Backend :=
  { bAllOk with getInsights := fun _ => .error ⟨"Request failed with status code 500", none⟩ }

/-- A backend on which only the login request fails. -/
def bAuthFail : Backend :=
  { bAllOk with
      login := fun _ _ =>
        .error ⟨"Request failed with status code 401", some "Invalid credentials"⟩ }

/-- A backend on which only the create-application request fails. -/
def bCreateErr : Backend :=
  { bAllOk with createApplication := fun _ => .error ⟨"create boom", none⟩ }

/-- A backend whose create-application response carries no id. -/
def bNoId : Backend :=
  { bAllOk with createApplication := fun _ => .ok ⟨201, none⟩ }

/-- A backend on which every request fails at the transport level, each
with its own message. -/
def bAllErr : Backend where
  health := fun _ => .error ⟨"health down", none⟩
  login := fun _ _ => .error ⟨"login down", some "backend says no"⟩
  listApplications := fun _ => .error ⟨"list down", none⟩
  createApplication := fun _ => .error ⟨"create down", none⟩
  getApplication := fun _ _ => .error ⟨"get down", none⟩
  updateApplication := fun _ _ => .error ⟨"update down", none⟩
  deleteApplication := fun _ _ => .error ⟨"delete down", none⟩
  listDeployments := fun _ => .error ⟨"deployments down", none⟩
  getInsights := fun _ => .error ⟨"insights down", none⟩
  getRecommendations := fun _ => .error ⟨"recommendations down", none⟩
  graphql := fun _ => .error ⟨"graphql down", none⟩

end UltimatePaas

namespace UltimatePaas

/-! ## Theorems -/

/-- Helper for C9: along any sequence of login outcomes starting from a
token state whose truthiness agrees with its presence, the stored token
stays truthy-iff-present, and it is present exactly when it was already
present or some login in the sequence succeeded with a truthy token. -/
theorem authFold_invariant (resps : List (Except HttpError LoginData)) :
    ∀ init : Option String, truthyStr init = init.isSome →
      truthyStr (resps.foldl (fun tok r => (authUpdate tok r).1) init) =
        (resps.foldl (fun tok r => (authUpdate tok r).1) init).isSome ∧
      (resps.foldl (fun tok r => (authUpdate tok r).1) init).isSome =
        (init.isSome || resps.any loginSucceeds) := by
  induction resps with
  | nil =>
      intro init h
      exact ⟨h, by simp⟩
  | cons r t ih =>
      intro init h
      have hstep : truthyStr (authUpdate init r).1 = (authUpdate init r).1.isSome ∧
          (authUpdate init r).1.isSome = (init.isSome || loginSucceeds r) := by
        cases r with
        | error e => simpa [authUpdate, loginSucceeds] using h
        | ok d =>
            cases hd : d.access_token with
            | none => simpa [authUpdate, loginSucceeds, truthyStr, hd] using h
            | some s =>
                by_cases hs : s = ""
                · simpa [authUpdate, loginSucceeds, truthyStr, hd, hs] using h
                · simp [authUpdate, loginSucceeds, truthyStr, hd, hs]
      have := ih (authUpdate init r).1 hstep.1
      refine ⟨this.1, ?_⟩
      rw [List.foldl_cons]
      rw [this.2, hstep.2]
      simp [Bool.or_assoc]

/-- C9: the stored bearer token is set exactly when some prior
`testAuthentication` call succeeded with an access token; a failed or
token-less login leaves the previously stored token unchanged; and the
request interceptor attaches the `Authorization: Bearer` header exactly
when a token is stored. -/
theorem C9_authToken_invariant :
    (∀ (tok : Option String) (r : Except HttpError LoginData),
        (authUpdate tok r).2.success = false → (authUpdate tok r).1 = tok) ∧
    (∀ resps : List (Except HttpError LoginData),
        (authTokenAfter resps).isSome = resps.any loginSucceeds) ∧
    (∀ resps : List (Except HttpError LoginData),
        (mkAuthHeader (authTokenAfter resps)).isSome = (authTokenAfter resps).isSome) := by
  refine ⟨?_, ?_, ?_⟩
  · intro tok r h
    cases r with
    | error e => rfl
    | ok d =>
        by_cases ht : truthyStr d.access_token
        · simp [authUpdate, ht] at h
        · simp [authUpdate, ht]
  · intro resps
    have := authFold_invariant resps none rfl
    simpa [authTokenAfter] using this.2
  · intro resps
    have := authFold_invariant resps none rfl
    have htr : truthyStr (authTokenAfter resps) = (authTokenAfter resps).isSome := by
      simpa [authTokenAfter] using this.1
    rw [← htr]
    by_cases h : truthyStr (authTokenAfter resps) <;> simp [mkAuthHeader, h]

/-- Witness for C9: a failed login leaves the stored token `some "old"`
unchanged, and on a concrete outcome sequence the token is present
exactly when some login succeeded, with the header attached exactly
then. -/
theorem C9_authToken_invariant_witness :
    ((authUpdate (some "old") (.error ⟨"boom", none⟩)).2.success = false ∧
      (authUpdate (some "old") (.error ⟨"boom", none⟩)).1 = some "old") ∧
    (authTokenAfter [.error ⟨"boom", none⟩, .ok ⟨some "tok"⟩]).isSome =
      ([.error ⟨"boom", none⟩, .ok ⟨some "tok"⟩] :
        List (Except HttpError LoginData)).any loginSucceeds ∧
    (mkAuthHeader (authTokenAfter [.error ⟨"boom", none⟩, .ok ⟨some "tok"⟩])).isSome =
      (authTokenAfter [.error ⟨"boom", none⟩, .ok ⟨some "tok"⟩]).isSome :=
  ⟨⟨by decide, C9_authToken_invariant.1 (some "old") (.error ⟨"boom", none⟩) (by decide)⟩,
    C9_authToken_invariant.2.1 [.error ⟨"boom", none⟩, .ok ⟨some "tok"⟩],
    C9_authToken_invariant.2.2 [.error ⟨"boom", none⟩, .ok ⟨some "tok"⟩]⟩

/-- Counterexample to C2 as stated: when the connectivity probe fails,
`runFullIntegrationTest` returns early and no other probe category is
attempted or recorded — they are not all attempted in every run. -/
theorem C2_counterexample :
    (runFullIntegrationTest bConnFail).results.connectivity = false ∧
    (runFullIntegrationTest bConnFail).results.authentication = none ∧
    (runFullIntegrationTest bConnFail).results.applications = none ∧
    (runFullIntegrationTest bConnFail).results.deployments = none ∧
    (runFullIntegrationTest bConnFail).results.ai = none ∧
    (runFullIntegrationTest bConnFail).results.graphql = none := by
  decide

/-- C2 as amended: whenever the connectivity probe succeeds, every later
probe category (authentication, applications, deployments, AI, GraphQL)
is attempted and records its own result — in particular an
authentication failure does not skip the application probes. -/
theorem C2_no_abort_after_connectivity (b : Backend)
    (h : (runFullIntegrationTest b).results.connectivity = true) :
    (runFullIntegrationTest b).results.authentication.isSome = true ∧
    (runFullIntegrationTest b).results.applications.isSome = true ∧
    (runFullIntegrationTest b).results.deployments.isSome = true ∧
    (runFullIntegrationTest b).results.ai.isSome = true ∧
    (runFullIntegrationTest b).results.graphql.isSome = true := by
  by_cases hc : testConnectivity b none
  · simp [runFullIntegrationTest, hc]
  · simp [runFullIntegrationTest, hc] at h

/-- Witness for C2: on a backend whose login fails but whose health
check succeeds, every category after connectivity is still attempted. -/
theorem C2_no_abort_after_connectivity_witness :
    (runFullIntegrationTest bAuthFail).results.connectivity = true ∧
    ((runFullIntegrationTest bAuthFail).results.authentication.isSome = true ∧
      (runFullIntegrationTest bAuthFail).results.applications.isSome = true ∧
      (runFullIntegrationTest bAuthFail).results.deployments.isSome = true ∧
      (runFullIntegrationTest bAuthFail).results.ai.isSome = true ∧
      (runFullIntegrationTest bAuthFail).results.graphql.isSome = true) :=
  ⟨by decide, C2_no_abort_after_connectivity bAuthFail (by decide)⟩

/-- Counterexample to C3 as stated: on a backend where only the AI
category fails, the returned overall flag is `true` even though a
recorded category (`ai`) did not succeed — the flag is not the AND over
all recorded categories. -/
theorem C3_counterexample :
    (runFullIntegrationTest bAiFail).success = true ∧
    ((runFullIntegrationTest bAiFail).results.ai.map AIProbeResult.success) = some false ∧
    specOverallSuccess (runFullIntegrationTest bAiFail).results = false := by
  decide

/-- C3 as amended: the overall flag is the AND of only the connectivity,
authentication, applications and deployments successes; the AI and
GraphQL results are recorded but do not enter the flag. When
connectivity fails the flag is `false`. -/
theorem C3_overall_is_and_of_four (b : Backend) :
    ((runFullIntegrationTest b).results.connectivity = false →
      (runFullIntegrationTest b).success = false) ∧
    (∀ (auth : AuthResult) (apps : AppProbeResult) (deps : DepProbeResult),
      (runFullIntegrationTest b).results.authentication = some auth →
      (runFullIntegrationTest b).results.applications = some apps →
      (runFullIntegrationTest b).results.deployments = some deps →
      (runFullIntegrationTest b).success =
        ((runFullIntegrationTest b).results.connectivity &&
          auth.success && apps.success && deps.success)) := by
  by_cases hc : testConnectivity b none
  · constructor
    · intro h
      simp [runFullIntegrationTest, hc] at h
    · intro auth apps deps h1 h2 h3
      simp only [runFullIntegrationTest, hc] at h1 h2 h3 ⊢
      simp only [Bool.not_true, Bool.false_eq_true, if_false] at h1 h2 h3 ⊢
      simp_all
  · constructor
    · intro _
      simp [runFullIntegrationTest, hc]
    · intro auth apps deps h1 h2 h3
      simp [runFullIntegrationTest, hc] at h1

/-- Witness for C3: on the all-successful backend the recorded
authentication, applications and deployments results are as stated, and
the overall flag equals the AND of the four component successes. -/
theorem C3_overall_is_and_of_four_witness :
    ((runFullIntegrationTest bAllOk).results.authentication =
        some ⟨true, some "tok", none⟩ ∧
      (runFullIntegrationTest bAllOk).results.applications =
        some ⟨true, ⟨some true, some true, some true, some true, some true⟩, []⟩ ∧
      (runFullIntegrationTest bAllOk).results.deployments = some ⟨true, ⟨true⟩, []⟩) ∧
    (runFullIntegrationTest bAllOk).success =
      ((runFullIntegrationTest bAllOk).results.connectivity && true && true && true) :=
  ⟨⟨by decide, by decide, by decide⟩,
    (C3_overall_is_and_of_four bAllOk).2 ⟨true, some "tok", none⟩
      ⟨true, ⟨some true, some true, some true, some true, some true⟩, []⟩
      ⟨true, ⟨true⟩, []⟩ (by decide) (by decide) (by decide)⟩

/-- C6: every probe converts a transport error into a returned failure
result instead of propagating it — `testConnectivity` returns `false`,
and the other probes return `success = false` with the message text
taken from the caught error (for authentication, the response message
when truthy, else the error message). In the embedding each probe is a
total function, so no exception escapes its boundary by construction. -/
theorem C6_probes_convert_transport_errors :
    (∀ (b : Backend) (tok : Option String) (e : HttpError),
        b.health (mkAuthHeader tok) = .error e → testConnectivity b tok = false) ∧
    (∀ (b : Backend) (tok : Option String) (creds : Creds) (e : HttpError),
        b.login (mkAuthHeader tok) creds = .error e →
        (testAuthentication b tok creds).2 =
          ⟨false, none, some (jsOrStr e.responseMessage e.message)⟩) ∧
    (∀ (b : Backend) (tok : Option String) (eL eC : HttpError),
        b.listApplications (mkAuthHeader tok) = .error eL →
        b.createApplication (mkAuthHeader tok) = .error eC →
        testApplicationEndpoints b tok =
          ⟨false, ⟨some false, some false, none, none, none⟩,
            ["List applications failed: " ++ eL.message,
             "Create application failed: " ++ eC.message]⟩) ∧
    (∀ (b : Backend) (tok : Option String) (e : HttpError),
        b.listDeployments (mkAuthHeader tok) = .error e →
        testDeploymentEndpoints b tok =
          ⟨false, ⟨false⟩, ["List deployments failed: " ++ e.message]⟩) ∧
    (∀ (b : Backend) (tok : Option String) (eI eR : HttpError),
        b.getInsights (mkAuthHeader tok) = .error eI →
        b.getRecommendations (mkAuthHeader tok) = .error eR →
        testAIEndpoints b tok =
          ⟨false, ⟨false, false⟩,
            ["Get AI insights failed: " ++ eI.message,
             "Get AI recommendations failed: " ++ eR.message]⟩) ∧
    (∀ (b : Backend) (tok : Option String) (e : HttpError),
        b.graphql (mkAuthHeader tok) = .error e →
        testGraphQLEndpoint b tok = ⟨false, some e.message⟩) := by
  refine ⟨?_, ?_, ?_, ?_, ?_, ?_⟩
  · intro b tok e h
    simp [testConnectivity, h]
  · intro b tok creds e h
    simp [testAuthentication, authUpdate, h]
  · intro b tok eL eC hL hC
    simp [testApplicationEndpoints, hL, hC, AppResults.values]
  · intro b tok e h
    simp [testDeploymentEndpoints, h]
  · intro b tok eI eR hI hR
    simp [testAIEndpoints, hI, hR]
  · intro b tok e h
    simp [testGraphQLEndpoint, h]

/-- Witness for C6: on the all-erroring backend every probe returns the
corresponding failure result carrying the error's message. -/
theorem C6_probes_convert_transport_errors_witness :
    (bAllErr.health (mkAuthHeader none) = .error ⟨"health down", none⟩ ∧
      testConnectivity bAllErr none = false) ∧
    (bAllErr.login (mkAuthHeader none) ⟨"admin", "admin123"⟩ =
        .error ⟨"login down", some "backend says no"⟩ ∧
      (testAuthentication bAllErr none ⟨"admin", "admin123"⟩).2 =
        ⟨false, none, some (jsOrStr (some "backend says no") "login down")⟩) ∧
    (testApplicationEndpoints bAllErr none =
      ⟨false, ⟨some false, some false, none, none, none⟩,
        ["List applications failed: " ++ "list down",
         "Create application failed: " ++ "create down"]⟩) ∧
    (testDeploymentEndpoints bAllErr none =
      ⟨false, ⟨false⟩, ["List deployments failed: " ++ "deployments down"]⟩) ∧
    (testAIEndpoints bAllErr none =
      ⟨false, ⟨false, false⟩,
        ["Get AI insights failed: " ++ "insights down",
         "Get AI recommendations failed: " ++ "recommendations down"]⟩) ∧
    (testGraphQLEndpoint bAllErr none = ⟨false, some "graphql down"⟩) :=
  ⟨⟨rfl, C6_probes_convert_transport_errors.1 bAllErr none ⟨"health down", none⟩ rfl⟩,
   ⟨rfl, C6_probes_convert_transport_errors.2.1 bAllErr none ⟨"admin", "admin123"⟩
      ⟨"login down", some "backend says no"⟩ rfl⟩,
   C6_probes_convert_transport_errors.2.2.1 bAllErr none
     ⟨"list down", none⟩ ⟨"create down", none⟩ rfl rfl,
   C6_probes_convert_transport_errors.2.2.2.1 bAllErr none ⟨"deployments down", none⟩ rfl,
   C6_probes_convert_transport_errors.2.2.2.2.1 bAllErr none
     ⟨"insights down", none⟩ ⟨"recommendations down", none⟩ rfl rfl,
   C6_probes_convert_transport_errors.2.2.2.2.2 bAllErr none ⟨"graphql down", none⟩ rfl⟩

/-- C10: the get/update/delete sub-probes of `testApplicationEndpoints`
run exactly when the create-application response carries a truthy id;
when the create request fails or the response has no id, those three
keys are absent from the results record; and the returned success flag
is the AND over only the keys actually present. -/
theorem C10_subprobes_gated_on_created_id :
    (∀ (b : Backend) (tok : Option String) (e : HttpError),
        b.createApplication (mkAuthHeader tok) = .error e →
        (testApplicationEndpoints b tok).results.getApplication = none ∧
        (testApplicationEndpoints b tok).results.updateApplication = none ∧
        (testApplicationEndpoints b tok).results.deleteApplication = none) ∧
    (∀ (b : Backend) (tok : Option String) (r : CreateAppResp),
        b.createApplication (mkAuthHeader tok) = .ok r →
        truthyStr r.id = false →
        (testApplicationEndpoints b tok).results.getApplication = none ∧
        (testApplicationEndpoints b tok).results.updateApplication = none ∧
        (testApplicationEndpoints b tok).results.deleteApplication = none) ∧
    (∀ (b : Backend) (tok : Option String) (r : CreateAppResp),
        b.createApplication (mkAuthHeader tok) = .ok r →
        truthyStr r.id = true →
        (testApplicationEndpoints b tok).results.getApplication.isSome = true ∧
        (testApplicationEndpoints b tok).results.updateApplication.isSome = true ∧
        (testApplicationEndpoints b tok).results.deleteApplication.isSome = true) ∧
    (∀ (b : Backend) (tok : Option String),
        (testApplicationEndpoints b tok).success =
          (testApplicationEndpoints b tok).results.values.all id) := by
  refine ⟨?_, ?_, ?_, ?_⟩
  · intro b tok e h
    simp [testApplicationEndpoints, h]
  · intro b tok r h hid
    simp [testApplicationEndpoints, h, hid]
  · intro b tok r h hid
    simp only [testApplicationEndpoints, h, hid]
    cases hg : b.getApplication (mkAuthHeader tok) (r.id.getD "") <;>
      cases hu : b.updateApplication (mkAuthHeader tok) (r.id.getD "") <;>
        cases hd : b.deleteApplication (mkAuthHeader tok) (r.id.getD "") <;>
          simp [hg, hu, hd]
  · intro b tok
    cases hc : b.createApplication (mkAuthHeader tok) with
    | ok r =>
        by_cases hid : truthyStr r.id <;> simp [testApplicationEndpoints, hc, hid]
    | error e =>
        simp [testApplicationEndpoints, hc]

/-- Witness for C10: the three gated keys are absent when create errors
(`bCreateErr`) and when the created application has no id (`bNoId`), are
present on `bAllOk`, and the success flag on `bAllOk` equals the AND
over the present keys. -/
theorem C10_subprobes_gated_on_created_id_witness :
    (bCreateErr.createApplication (mkAuthHeader none) = .error ⟨"create boom", none⟩ ∧
      (testApplicationEndpoints bCreateErr none).results.getApplication = none ∧
      (testApplicationEndpoints bCreateErr none).results.updateApplication = none ∧
      (testApplicationEndpoints bCreateErr none).results.deleteApplication = none) ∧
    (bNoId.createApplication (mkAuthHeader none) = .ok ⟨201, none⟩ ∧
      truthyStr (⟨201, none⟩ : CreateAppResp).id = false ∧
      (testApplicationEndpoints bNoId none).results.getApplication = none ∧
      (testApplicationEndpoints bNoId none).results.updateApplication = none ∧
      (testApplicationEndpoints bNoId none).results.deleteApplication = none) ∧
    (bAllOk.createApplication (mkAuthHeader none) = .ok ⟨201, some "app-1"⟩ ∧
      truthyStr (⟨201, some "app-1"⟩ : CreateAppResp).id = true ∧
      (testApplicationEndpoints bAllOk none).results.getApplication.isSome = true ∧
      (testApplicationEndpoints bAllOk none).results.updateApplication.isSome = true ∧
      (testApplicationEndpoints bAllOk none).results.deleteApplication.isSome = true) ∧
    (testApplicationEndpoints bAllOk none).success =
      (testApplicationEndpoints bAllOk none).results.values.all id := by
  refine ⟨⟨rfl, ?_⟩, ⟨rfl, by decide, ?_⟩, ⟨rfl, by decide, ?_⟩, ?_⟩
  · exact C10_subprobes_gated_on_created_id.1 bCreateErr none ⟨"create boom", none⟩ rfl
  · exact C10_subprobes_gated_on_created_id.2.1 bNoId none ⟨201, none⟩ rfl (by decide)
  · exact C10_subprobes_gated_on_created_id.2.2.1 bAllOk none ⟨201, some "app-1"⟩ rfl
      (by decide)
  · exact C10_subprobes_gated_on_created_id.2.2.2 bAllOk none

/-- C1: evaluation of `run` at the failing inputs. On a run whose
backend startup throws (after `spawn` assigned the handle), the `catch`
block's `process.exit(1)` prevents the `finally` block from running:
`cleanup()` is invoked zero times and the spawned backend process is
never killed — contradicting the claim that cleanup runs exactly once on
every exit path. The same happens when prerequisites fail or frontend
startup throws; only the normally completing run reaches `cleanup()`
(exactly once, killing both spawned processes). -/
theorem C1_cleanup_skipped_on_throwing_paths :
    ((run ⟨.ok, .throws "Backend failed to start within 30 seconds", .ok⟩).cleanupCalls = 0 ∧
      (run ⟨.ok, .throws "Backend failed to start within 30 seconds", .ok⟩).backendSpawned = true ∧
      (run ⟨.ok, .throws "Backend failed to start within 30 seconds", .ok⟩).backendKills = 0 ∧
      (run ⟨.ok, .throws "Backend failed to start within 30 seconds", .ok⟩).exitCode = some 1) ∧
    ((run ⟨.throws "Backend directory not found", .ok, .ok⟩).cleanupCalls = 0) ∧
    ((run ⟨.ok, .ok, .throws "Frontend failed to start within 60 seconds"⟩).cleanupCalls = 0 ∧
      (run ⟨.ok, .ok, .throws "Frontend failed to start within 60 seconds"⟩).backendKills = 0) ∧
    ((run ⟨.ok, .ok, .ok⟩).cleanupCalls = 1 ∧
      (run ⟨.ok, .ok, .ok⟩).backendKills = 1 ∧
      (run ⟨.ok, .ok, .ok⟩).frontendKills = 1 ∧
      (run ⟨.ok, .ok, .ok⟩).exitCode = none) := by
  decide

/-- Helper for C4: when the timeout condition coincides with the resolve
condition (as in `startBackend`), the startup promise always settles —
the timeout rejects in every situation in which the chunk handler has
not already resolved. -/
theorem settleStart_same_cond_settles (c : String → Bool) (T : Nat) :
    ∀ (events : List (Nat × ProcEvent)) (acc : String), c acc = false →
      (settleStart c c T acc true events).isSettled = true := by
  intro events
  induction events with
  | nil =>
      intro acc h
      simp [settleStart, h, StartOutcome.isSettled]
  | cons ev rest ih =>
      intro acc h
      obtain ⟨t, e⟩ := ev
      by_cases hT : T ≤ t
      · simp [settleStart, hT, h, StartOutcome.isSettled]
      · cases e with
        | out ch =>
            by_cases hr : c (acc ++ ch)
            · simp [settleStart, hT, h, hr, StartOutcome.isSettled]
            · simpa [settleStart, hT, h, hr] using
                ih (acc ++ ch) (by simpa using hr)
        | procError m =>
            simp [settleStart, hT, h, StartOutcome.isSettled]

/-- C4: evaluation at the failing input. When the frontend prints a
readiness line containing `Ready in` but its output never contains
`3000` (for example because the dev server came up on another port), the
resolve condition never holds while the 60 s timeout condition does, so
the timeout callback does not reject and `startFrontend` neither
resolves nor rejects — it hangs, contradicting the claim that the
operation always settles. `startBackend`, whose timeout checks the same
readiness banner as its resolve path, settles on every event sequence. -/
theorem C4_startFrontend_can_hang :
    (startFrontendOutcome [(5000, ProcEvent.out "Ready in 2.1s")]).isSettled = false ∧
    startFrontendOutcome [(5000, ProcEvent.out "Ready in 2.1s")] = .hung ∧
    startBackendOutcome [(5000, ProcEvent.out "INFO: Started server process")] =
      .rejectedTimeout ∧
    (∀ events : List (Nat × ProcEvent),
      (startBackendOutcome events).isSettled = true) := by
  refine ⟨by decide, by decide, by decide, ?_⟩
  intro events
  exact settleStart_same_cond_settles
    (fun out => strHas out "Uvicorn running on") 30000 events "" (by decide)

/-- Helper for C5: when every attempt fails and request durations are
bounded by `maxDur`, the polling loop ends in a timeout error at an
elapsed time between `timeout` and `timeout + maxDur + 1000`, provided
the fuel covers the remaining time at the 1000 ms-per-iteration floor. -/
theorem waitForUrlGo_timeout_bound (attempts : Nat → Bool × Nat) (timeout maxDur : Nat)
    (hfail : ∀ k, (attempts k).1 = false) (hdur : ∀ k, (attempts k).2 ≤ maxDur) :
    ∀ (fuel k elapsed : Nat), timeout ≤ elapsed + 1000 * fuel →
      elapsed < timeout + maxDur + 1000 →
      ∃ t, waitForUrlGo attempts timeout fuel k elapsed = .timedOut t ∧
        timeout ≤ t ∧ t < timeout + maxDur + 1000 := by
  intro fuel
  induction fuel with
  | zero =>
      intro k elapsed h1 h2
      have hnlt : ¬ elapsed < timeout := by omega
      exact ⟨elapsed, by simp [waitForUrlGo, hnlt], by omega, h2⟩
  | succ fuel ih =>
      intro k elapsed h1 h2
      by_cases hlt : elapsed < timeout
      · have hf := hfail k
        have hrec := ih (k + 1) (elapsed + (attempts k).2 + 1000)
          (by omega) (by have := hdur k; omega)
        obtain ⟨t, ht, h3, h4⟩ := hrec
        refine ⟨t, ?_, h3, h4⟩
        simpa [waitForUrlGo, hlt, hf] using ht
      · exact ⟨elapsed, by simp [waitForUrlGo, hlt], by omega, h2⟩

/-- Helper for C5: when the first `k` attempts fail, attempt `k`
succeeds, and the elapsed time at which attempt `k` starts is still
below the timeout, the polling loop returns success (given fuel above
`k`). -/
theorem waitForUrlGo_success (attempts : Nat → Bool × Nat) (timeout : Nat) :
    ∀ (k fuel k0 elapsed : Nat),
      (∀ j, j < k → (attempts (k0 + j)).1 = false) →
      (attempts (k0 + k)).1 = true →
      elapsed + elapsedAt attempts k0 k < timeout →
      k < fuel →
      ∃ t, waitForUrlGo attempts timeout fuel k0 elapsed = .success t := by
  intro k
  induction k with
  | zero =>
      intro fuel k0 elapsed _ hsucc hel hfuel
      match fuel, hfuel with
      | fuel + 1, _ =>
        have hlt : elapsed < timeout := by
          simpa [elapsedAt] using hel
        have hs : (attempts k0).1 = true := by simpa using hsucc
        exact ⟨elapsed + (attempts k0).2, by simp [waitForUrlGo, hlt, hs]⟩
  | succ k ih =>
      intro fuel k0 elapsed hprev hsucc hel hfuel
      match fuel, hfuel with
      | fuel + 1, hfuel =>
        have h0 : (attempts k0).1 = false := by simpa using hprev 0 (by omega)
        have hsplit : elapsedAt attempts k0 (k + 1) =
            ((attempts k0).2 + 1000) + elapsedAt attempts (k0 + 1) k := rfl
        have hlt : elapsed < timeout := by omega
        have hrec := ih fuel (k0 + 1) (elapsed + (attempts k0).2 + 1000)
          (fun j hj => by
            have h := hprev (j + 1) (by omega)
            have heq : k0 + (j + 1) = k0 + 1 + j := by omega
            rwa [heq] at h)
          (by
            have heq : k0 + (k + 1) = k0 + 1 + k := by omega
            rwa [heq] at hsucc)
          (by omega)
          (by omega)
        obtain ⟨t, ht⟩ := hrec
        refine ⟨t, ?_⟩
        simpa [waitForUrlGo, hlt, h0] using ht

/-- Helper for C5: the elapsed time at which attempt `k` starts is at
least 1000 ms per earlier attempt. -/
theorem elapsedAt_ge (attempts : Nat → Bool × Nat) :
    ∀ (k k0 : Nat), 1000 * k ≤ elapsedAt attempts k0 k := by
  intro k
  induction k with
  | zero => intro k0; simp [elapsedAt]
  | succ k ih =>
      intro k0
      have := ih (k0 + 1)
      have hsplit : elapsedAt attempts k0 (k + 1) =
          ((attempts k0).2 + 1000) + elapsedAt attempts (k0 + 1) k := rfl
      omega

/-- Counterexample to C5 as stated: against a target that never returns
2xx, with each request taking 4999 ms (within the 5000 ms per-request
axios timeout) and the default 30000 ms timeout, `waitForUrl` throws its
timeout error only at 35994 ms elapsed — more than one poll interval
(1000 ms) past the configured duration. -/
theorem C5_counterexample :
    waitForUrl attemptsSlow 30000 = .timedOut 35994 ∧
    30000 + 1000 < 35994 := by
  decide

/-- C5 as amended: against a target that never returns 2xx,
`waitForUrl` terminates with a timeout error at an elapsed time of at
least the configured timeout and less than the configured timeout plus
one request duration bound plus one poll interval — it does not hang;
and when the first successful attempt starts before the deadline it
returns successfully. -/
theorem C5_waitForUrl_terminates (attempts : Nat → Bool × Nat) (timeout maxDur : Nat) :
    ((∀ k, (attempts k).1 = false) → (∀ k, (attempts k).2 ≤ maxDur) →
      ∃ t, waitForUrl attempts timeout = .timedOut t ∧
        timeout ≤ t ∧ t < timeout + maxDur + 1000) ∧
    (∀ k, (∀ j, j < k → (attempts j).1 = false) → (attempts k).1 = true →
      elapsedAt attempts 0 k < timeout →
      ∃ t, waitForUrl attempts timeout = .success t) := by
  constructor
  · intro hfail hdur
    exact waitForUrlGo_timeout_bound attempts timeout maxDur hfail hdur
      (timeout + 1) 0 0 (by omega) (by omega)
  · intro k hprev hsucc hel
    have hk : 1000 * k ≤ elapsedAt attempts 0 k := elapsedAt_ge attempts k 0
    exact waitForUrlGo_success attempts timeout k (timeout + 1) 0 0
      (fun j hj => by simpa using hprev j hj)
      (by simpa using hsucc)
      (by omega)
      (by omega)

/-- Witness for C5: on a target that always fails instantly with a
2000 ms timeout the loop times out within the proved bounds, and on a
target whose first attempt succeeds within a 100 ms deadline it returns
successfully. -/
theorem C5_waitForUrl_terminates_witness :
    ((∀ k, (attemptsNever k).1 = false) ∧
      (∀ k, (attemptsNever k).2 ≤ 0) ∧
      ∃ t, waitForUrl attemptsNever 2000 = .timedOut t ∧
        2000 ≤ t ∧ t < 2000 + 0 + 1000) ∧
    ((∀ j, j < 0 → (attemptsFirstOk j).1 = false) ∧
      (attemptsFirstOk 0).1 = true ∧
      elapsedAt attemptsFirstOk 0 0 < 100 ∧
      ∃ t, waitForUrl attemptsFirstOk 100 = .success t) :=
  ⟨⟨fun _ => rfl, fun _ => Nat.le_refl 0,
    (C5_waitForUrl_terminates attemptsNever 2000 0).1
      (fun _ => rfl) (fun _ => Nat.le_refl 0)⟩,
   ⟨fun j hj => absurd hj (by omega), rfl, by decide,
    (C5_waitForUrl_terminates attemptsFirstOk 100 0).2 0
      (fun j hj => absurd hj (by omega)) rfl (by decide)⟩⟩

/-- C7: `generateReport` derives the overall success flag as the logical
AND of exactly the API-integration, frontend-test and e2e-test phase
successes, and it is `true` exactly when all three are. -/
theorem C7_overall_is_and_of_three (tr : TestResults) :
    (generateReport tr).overall =
      (tr.integration.success && tr.frontend.success && tr.e2e.success) := by
  cases hi : tr.integration.success <;>
    cases hf : tr.frontend.success <;>
      cases he : tr.e2e.success <;>
        simp [generateReport, hi, hf, he]

/-- C8: parsing the serialized `testResults` back out of the report JSON
yields exactly the per-phase success booleans, and those are the values
shown in the console summary lines of the same run. -/
theorem C8_report_roundtrip (tr : TestResults) :
    decodePhaseSuccess (generateReport tr).reportJson "integration" =
      some tr.integration.success ∧
    decodePhaseSuccess (generateReport tr).reportJson "frontend" =
      some tr.frontend.success ∧
    decodePhaseSuccess (generateReport tr).reportJson "e2e" =
      some tr.e2e.success ∧
    (generateReport tr).lines =
      ["API Integration: " ++ (if tr.integration.success then "PASS" else "FAIL"),
       "Frontend Tests: " ++ (if tr.frontend.success then "PASS" else "FAIL"),
       "E2E Tests: " ++ (if tr.e2e.success then "PASS" else "FAIL")] := by
  refine ⟨rfl, rfl, rfl, rfl⟩

end UltimatePaas
